import Mathlib

/-!
Verification of the coordination layer of rivanna.dev.

The definitions below are a shallow embedding of the Python sources:

* `apps/cli/tests/tier3-multinode-ray/coordinator.py` — shared record store
  (`write_file`, `poll_file`), worker rendezvous (`run_worker`), rank selection;
* `apps/cli/tests/tier2-multinode-ddp/train.py` — topology verification
  (`check_topology`) and the barrier-interleaved self-report loop;
* `apps/cli/tests/workloads/test-checkpoint-restart/long_train.py` — the
  segment/resume signal handler (`handle_signal`).

Machine time is modelled with `Nat` (seconds) for the polling loops and `ℚ`
for the wall-clock arithmetic of the signal handler; file contents are `String`;
a missing file is `Option.none`.
-/

/-- A snapshot of the shared filesystem: the content of each path, `none` when
the file does not exist. -/
def FileStore := String → Option String

/-- `write_file(path, content)` (coordinator.py lines 33-36): create-or-overwrite
of the target path, in place (`open(path, "w")` followed by `f.write(content)`).
This is the resulting store once the write has completed. -/
def write_file (store : FileStore) (path content : String) : FileStore :=
  fun p => if p = path then some content else store p

/-- Python's `str.strip()`: remove leading and trailing whitespace characters. -/
def py_strip (s : String) : String :=
  String.mk (((s.toList.dropWhile Char.isWhitespace).reverse.dropWhile
    Char.isWhitespace).reverse)

/-- One iteration of `poll_file`'s check (coordinator.py lines 43-47): if the
file exists, its content is read and stripped of surrounding whitespace
(`f.read().strip()`); content that is empty after stripping is treated exactly
like an absent file (the loop keeps polling). -/
def read_once (store : FileStore) (path : String) : Option String :=
  match store path with
  | none => none
  | some c => if py_strip c = "" then none else some (py_strip c)

/-- The content of one polled file over time: `tstore t` is the file's state at
the check performed `t` seconds after polling began (`none` = no file). -/
def TimedFile := Nat → Option String

/-- The loop body of `poll_file` (coordinator.py lines 41-49). `t` is the time
elapsed since the first check; the loop runs while `t < timeout`, reads and
strips the file's content, returns it when non-empty, and otherwise sleeps
`interval` seconds and retries; when the deadline passes it raises
`TimeoutError`. The fuel argument only bounds the recursion: with a positive
interval, `timeout + 1` iterations always cover the whole window. -/
def poll_file_aux (tstore : TimedFile) (timeout interval : Nat) :
    Nat → Nat → Except String String
  | _, 0 => Except.error "TimeoutError"
  | t, fuel + 1 =>
    if t < timeout then
      match tstore t with
      | some c =>
          if py_strip c = "" then poll_file_aux tstore timeout interval (t + interval) fuel
          else Except.ok (py_strip c)
      | none => poll_file_aux tstore timeout interval (t + interval) fuel
    else Except.error "TimeoutError"

/-- `poll_file(path, timeout, interval)` (coordinator.py lines 39-49): block
until the file appears with non-blank content and return that content stripped,
or raise `TimeoutError` once `timeout` seconds have elapsed. -/
def poll_file (tstore : TimedFile) (timeout interval : Nat) : Except String String :=
  poll_file_aux tstore timeout interval 0 (timeout + 1)

/-- `run_worker()` (coordinator.py lines 303-329): poll for the head's address
file with a 120 s timeout (a `TimeoutError` here is not caught and kills the
process); then connect to the head and poll for the done file with a 600 s
timeout and 5 s interval inside `try/except TimeoutError`, so a timeout there
is logged and the worker still shuts down normally. -/
def run_worker (addr_file done_file : TimedFile) : Except String String :=
  match poll_file addr_file 120 2 with
  | Except.error e => Except.error e
  | Except.ok head_addr =>
    match poll_file done_file 600 5 with
    | Except.ok _ => Except.ok head_addr
    | Except.error _ => Except.ok head_addr

/-- CPython process-exit semantics for a script with no top-level handler: a
script that runs to completion exits with status 0; an uncaught exception
terminates the interpreter with status 1. -/
def script_exit_code (outcome : Except String String) : Int :=
  match outcome with
  | Except.ok _ => 0
  | Except.error _ => 1

/-- The distinguished resubmission ("resume") exit code of the segment/resume
controller: long_train.py's handler terminates with `sys.exit(1)` (line 11,
"Non-zero exit triggers resubmission"), and the spec designates this code as
"interrupted, resubmit". -/
def resume_exit_code : Int := 1

lemma poll_file_aux_blank (tstore : TimedFile) (timeout interval : Nat)
    (h : ∀ u c, tstore u = some c → py_strip c = "") :
    ∀ fuel t, poll_file_aux tstore timeout interval t fuel = Except.error "TimeoutError" := by
  intro fuel
  induction fuel with
  | zero => intro t; rfl
  | succ n ih =>
    intro t
    unfold poll_file_aux
    by_cases ht : t < timeout
    · rw [if_pos ht]
      cases hc : tstore t with
      | none => exact ih (t + interval)
      | some c =>
        dsimp only
        rw [if_pos (h t c hc)]
        exact ih (t + interval)
    · rw [if_neg ht]

lemma poll_file_aux_ok (tstore : TimedFile) (timeout interval : Nat) (v : String) :
    ∀ fuel t, poll_file_aux tstore timeout interval t fuel = Except.ok v →
      v ≠ "" ∧ ∃ u c, tstore u = some c ∧ v = py_strip c := by
  intro fuel
  induction fuel with
  | zero => intro t h; exact absurd h (by simp [poll_file_aux])
  | succ n ih =>
    intro t h
    unfold poll_file_aux at h
    by_cases ht : t < timeout
    · rw [if_pos ht] at h
      cases hc : tstore t with
      | none => rw [hc] at h; exact ih (t + interval) h
      | some c =>
        rw [hc] at h
        dsimp only at h
        by_cases he : py_strip c = ""
        · rw [if_pos he] at h
          exact ih (t + interval) h
        · rw [if_neg he] at h
          have hv : v = py_strip c := by
            cases h
            rfl
          exact ⟨hv ▸ he, t, c, hc, hv⟩
    · rw [if_neg ht] at h
      exact absurd h (by simp)

/-- C2 (counterexample): the claim "a read after `write(job_id, "address", address)`
returns exactly that address, byte-for-byte" fails on the code: `poll_file`
strips surrounding whitespace, so writing `"10.0.0.1:6379\n"` reads back as
`"10.0.0.1:6379"`, not the bytes written. -/
theorem read_after_write_not_verbatim :
    read_once (write_file (fun _ => none) "42.addr" "10.0.0.1:6379\n") "42.addr" ≠
      some "10.0.0.1:6379\n" := by
  decide

/-- C2 (amended): for every store, path and address, a read performed after
`write_file(path, address)` returns the written address with leading and
trailing whitespace stripped — in particular an all-whitespace address reads as
absent — and it returns byte-for-byte exactly what was written iff the address
is non-empty and carries no surrounding whitespace; a read performed before any
write (empty store) returns absent. -/
theorem read_after_write_stripped (store : FileStore) (path a : String) :
    read_once (write_file store path a) path =
      (if py_strip a = "" then none else some (py_strip a)) ∧
    (read_once (write_file store path a) path = some a ↔
      (py_strip a = a ∧ a ≠ "")) ∧
    read_once (fun _ => none) path = none := by
  have hro : read_once (write_file store path a) path =
      (if py_strip a = "" then none else some (py_strip a)) := by
    simp [read_once, write_file]
  refine ⟨hro, ?_, rfl⟩
  rw [hro]
  by_cases hb : py_strip a = ""
  · rw [if_pos hb]
    constructor
    · intro h
      exact Option.noConfusion h
    · rintro ⟨h1, h2⟩
      exact absurd (h1.symm.trans hb) h2
  · rw [if_neg hb]
    constructor
    · intro h
      have h1 : py_strip a = a := Option.some_injective _ h
      exact ⟨h1, h1 ▸ hb⟩
    · rintro ⟨h1, _⟩
      rw [h1]

theorem read_after_write_stripped_witness :
    read_once (write_file (fun _ => none) "42.addr" " \n") "42.addr" = none ∧
    read_once (write_file (fun _ => none) "42.addr" " 10.0.0.1:6379\n") "42.addr" =
      some "10.0.0.1:6379" := by
  constructor
  · rw [(read_after_write_stripped (fun _ => none) "42.addr" " \n").1]
    decide
  · rw [(read_after_write_stripped (fun _ => none) "42.addr" " 10.0.0.1:6379\n").1]
    decide

/-- C3 (counterexample): the claim's "non-resume exit code" conjunct fails on
the code — at a concrete run where the address file never appears, the worker's
observed exit status equals the designated resume code (the `sys.exit(1)` of
long_train.py), so it is not a non-resume code: an external system following
the exit-code contract, keying only on the status, cannot distinguish this
fatal rendezvous failure from a resubmission request. -/
theorem worker_timeout_exit_is_resume_code :
    script_exit_code (run_worker (fun _ => none) (fun _ => none)) =
      resume_exit_code ∧
    script_exit_code (run_worker (fun _ => none) (fun _ => none)) ≠ 0 := by
  exact ⟨rfl, by decide⟩

/-- C3 (amended): if the coordinator's address file never appears within the
worker's 120 s address wait, the polling read raises `TimeoutError` (the spec's
`RendezvousTimeout`); `run_worker` does not catch it, so it is fatal to the
worker process, which dies with a non-zero exit status — but that status is
CPython's uncaught-exception status 1, numerically identical to the designated
resume code, not a distinguishable non-resume code. -/
theorem worker_address_timeout_fatal (addr_file done_file : TimedFile)
    (habs : ∀ t, addr_file t = none) :
    run_worker addr_file done_file = Except.error "TimeoutError" ∧
    script_exit_code (run_worker addr_file done_file) ≠ 0 ∧
    script_exit_code (run_worker addr_file done_file) = resume_exit_code := by
  have hp : poll_file addr_file 120 2 = Except.error "TimeoutError" :=
    poll_file_aux_blank addr_file 120 2
      (fun u c hc => by rw [habs u] at hc; cases hc) _ _
  have hr : run_worker addr_file done_file = Except.error "TimeoutError" := by
    unfold run_worker
    rw [hp]
  exact ⟨hr, by rw [hr]; decide, by rw [hr]; rfl⟩

theorem worker_address_timeout_fatal_witness :
    run_worker (fun _ => none) (fun _ => none) = Except.error "TimeoutError" ∧
    script_exit_code (run_worker (fun _ => none) (fun _ => none)) ≠ 0 ∧
    script_exit_code (run_worker (fun _ => none) (fun _ => none)) =
      resume_exit_code :=
  worker_address_timeout_fatal (fun _ => none) (fun _ => none) (fun _ => rfl)

/-- C9: `poll_file` never returns an empty string — a file that exists with
blank content is treated exactly like an absent file (an always-blank file and
an always-absent file give the same outcome), and every value it does return is
the observed file content with leading and trailing whitespace stripped. -/
theorem poll_file_returns_nonempty_stripped :
    (∀ tstore timeout interval v,
      poll_file tstore timeout interval = Except.ok v →
        v ≠ "" ∧ ∃ u c, tstore u = some c ∧ v = py_strip c) ∧
    (∀ timeout interval : Nat,
      poll_file (fun _ => some "") timeout interval =
        poll_file (fun _ => none) timeout interval) := by
  constructor
  · intro tstore timeout interval v h
    exact poll_file_aux_ok tstore timeout interval v _ _ h
  · intro timeout interval
    unfold poll_file
    rw [poll_file_aux_blank (fun _ => some "") timeout interval
          (fun u c hc => by cases hc; rfl) _ _,
        poll_file_aux_blank (fun _ => none) timeout interval
          (fun u c hc => by cases hc) _ _]

theorem poll_file_returns_nonempty_stripped_witness :
    ("addr" : String) ≠ "" ∧
    ∃ u c, (fun _ : Nat => some " addr ") u = some c ∧ "addr" = py_strip c :=
  poll_file_returns_nonempty_stripped.1 (fun _ => some " addr ") 120 2 "addr" rfl

/-- The file states a concurrent reader can observe while
`write_file(path, content)` (coordinator.py lines 33-36) is in progress. The
code opens the final path with mode `"w"` — truncating it in place — and then
writes the string; the data reaches the file as one or more underlying writes
(`chunks`, whose concatenation is the content passed in). A reader can see the
prior state `old`, the truncated-empty state, every chunk-boundary prefix, and
the final content. -/
def write_file_observable_states (old : Option String) (chunks : List String) :
    List (Option String) :=
  old :: (List.scanl (fun acc c => acc ++ c) "" chunks).map some

/-- Modelled from the spec: the observable states of the recommended atomic
write (write a temporary path in the same directory, then rename into place),
which coordinator.py's `write_file` does not implement — a reader sees only the
old state or the complete new content. -/
def atomic_write_observable_states (old : Option String) (content : String) :
    List (Option String) :=
  [old, some content]

/-- C4: `write_file` is not atomic from a reader's perspective. Writing
`"10.0.0.1:6379"` to an absent address file with the data reaching the file as
the two chunks `"10.0.0.1:"` and `"6379"` lets a concurrent reader observe
`"10.0.0.1:"` — a non-empty, strict, truncated prefix of the value being
written — which the atomic temp-and-rename write of the spec never exposes. -/
theorem write_file_truncated_prefix_observable :
    some "10.0.0.1:" ∈ write_file_observable_states none ["10.0.0.1:", "6379"] ∧
    "10.0.0.1:" ≠ "" ∧
    "10.0.0.1:" ≠ "10.0.0.1:6379" ∧
    "10.0.0.1:".toList <+: "10.0.0.1:6379".toList ∧
    some "10.0.0.1:" ∉ atomic_write_observable_states none "10.0.0.1:6379" := by
  decide

/-- The rank-0 summary computed by `check_topology`
(tier2-multinode-ddp/train.py lines 51-80): the gathered hostnames are
deduplicated (`sorted(set(hostnames))`), `unique_hosts` is their number,
`is_multi_node` holds iff more than one distinct host reported, and when it
fails the code prints a WARNING and continues (no exception, no failure). -/
structure TopologyResult where
  unique_hosts : Nat
  is_multi_node : Bool
  single_node_warning : Bool

/-- The host-count part of `check_topology` (train.py lines 51-58, 75-79); the
same computation appears in coordinator.py lines 113-124
(`sorted(set(node_hostnames))`, `is_multi_node = len(set(...)) > 1`). -/
def check_topology (hostnames : List String) : TopologyResult :=
  let n := hostnames.dedup.length
  { unique_hosts := n
    is_multi_node := decide (1 < n)
    single_node_warning := !(decide (1 < n)) }

/-- C5: `unique_hosts` is the cardinality of the deduplicated set of gathered
hostnames, the run is declared multi-node iff that count exceeds 1, and when
all hostnames are identical the count is 1 and the single-node degeneration is
flagged as a warning (the verifier still returns normally). -/
theorem topology_host_count (hostnames : List String) (h : String) :
    (check_topology hostnames).unique_hosts = hostnames.toFinset.card ∧
    ((check_topology hostnames).is_multi_node = true ↔ 1 < hostnames.toFinset.card) ∧
    (hostnames ≠ [] → (∀ x ∈ hostnames, x = h) →
      (check_topology hostnames).unique_hosts = 1 ∧
      (check_topology hostnames).is_multi_node = false ∧
      (check_topology hostnames).single_node_warning = true) := by
  have hcard : hostnames.toFinset.card = hostnames.dedup.length :=
    List.card_toFinset hostnames
  refine ⟨by simp [check_topology, hcard], by simp [check_topology, hcard], ?_⟩
  intro hne hall
  obtain ⟨x, hxmem⟩ := List.exists_mem_of_ne_nil hostnames hne
  have hfs : hostnames.toFinset = {h} := by
    ext y
    simp only [List.mem_toFinset, Finset.mem_singleton]
    constructor
    · exact fun hy => hall y hy
    · rintro rfl
      exact hall x hxmem ▸ hxmem
  have hone : hostnames.dedup.length = 1 := by
    rw [← List.card_toFinset, hfs, Finset.card_singleton]
  refine ⟨?_, ?_, ?_⟩ <;> simp [check_topology, hone]

theorem topology_host_count_witness :
    (check_topology ["udc-an28-1", "udc-an28-1"]).unique_hosts = 1 ∧
    (check_topology ["udc-an28-1", "udc-an28-1"]).is_multi_node = false ∧
    (check_topology ["udc-an28-1", "udc-an28-1"]).single_node_warning = true :=
  (topology_host_count ["udc-an28-1", "udc-an28-1"] "udc-an28-1").2.2
    (by decide) (by decide)

/-- Python's `in` operator on strings: `a in b` iff `a` occurs as a contiguous
substring of `b`. -/
def py_in (a b : String) : Bool := decide (a.toList <:+: b.toList)

/-- The MASTER_ADDR consistency check of `check_topology`
(tier2-multinode-ddp/train.py lines 65-73): rank 0 compares MASTER_ADDR with
`hostnames[0]` only, by bidirectional substring containment
(`master_addr in hostnames[0] or hostnames[0] in master_addr`). `none` models
the IndexError on an empty gather (unreachable: world size is at least 1). -/
def master_addr_check (master_addr : String) (hostnames : List String) : Option Bool :=
  match hostnames with
  | [] => none
  | h0 :: _ => some (py_in master_addr h0 || py_in h0 master_addr)

/-- C6 (counterexample): the check does not pass whenever MASTER_ADDR matches
one of the reported hostnames — with gathered hostnames `["node1", "node2"]`
and MASTER_ADDR `"node2"` (a reported hostname), the code's check fails, since
it only compares against the rank-0 hostname `"node1"`. -/
theorem master_addr_check_counterexample :
    ("node2" : String) ∈ ["node1", "node2"] ∧
    master_addr_check "node2" ["node1", "node2"] = some false := by
  decide

/-- C6 (amended): the head-address consistency check passes iff MASTER_ADDR and
the first reported hostname (rank 0's) contain one another as a substring in
either direction; hostnames reported by the other ranks are ignored by the
check. -/
theorem master_addr_check_amended (m h0 : String) (rest rest2 : List String) :
    (master_addr_check m (h0 :: rest) = some true ↔
      (m.toList <:+: h0.toList ∨ h0.toList <:+: m.toList)) ∧
    master_addr_check m (h0 :: rest) = master_addr_check m (h0 :: rest2) := by
  constructor
  · simp [master_addr_check, py_in]
  · rfl

/-- What the segment/resume signal handler reports and how it terminates. -/
structure SignalReport where
  segment_elapsed : ℚ
  total_elapsed : ℚ
  exit_code : Int

/-- `handle_signal(signum, frame)` (long_train.py lines 7-11), installed for
SIGUSR1 and SIGTERM: computes `elapsed = time.time() - segment_start`, reports
it together with `total_elapsed + elapsed` — the script's `total_elapsed`
variable holds the prior elapsed value read from `RV_TOTAL_ELAPSED` at start —
and calls `sys.exit(1)`, the designated resubmission (resume) exit code. -/
def handle_signal (prior_elapsed : Int) (segment_start now : ℚ) : SignalReport :=
  { segment_elapsed := now - segment_start
    total_elapsed := (prior_elapsed : ℚ) + (now - segment_start)
    exit_code := 1 }

/-- C1: for every prior elapsed value and every delay `t ≥ 0`, a signal arriving
at wall-clock time `segment_start + t` makes the handler report a segment
elapsed of exactly `t` (so certainly within ±0.5 s) and a total elapsed of
`prior_elapsed + t`, and the process exits with the resume code 1, never 0. -/
theorem signal_reports_cumulative_elapsed (prior : Int) (start t : ℚ)
    (_ht : 0 ≤ t) :
    (handle_signal prior start (start + t)).segment_elapsed = t ∧
    |(handle_signal prior start (start + t)).segment_elapsed - t| ≤ 1 / 2 ∧
    (handle_signal prior start (start + t)).total_elapsed = (prior : ℚ) + t ∧
    (handle_signal prior start (start + t)).exit_code = 1 ∧
    (handle_signal prior start (start + t)).exit_code ≠ 0 := by
  have he : (handle_signal prior start (start + t)).segment_elapsed = t := by
    show start + t - start = t
    ring
  refine ⟨he, ?_, ?_, rfl, one_ne_zero⟩
  · rw [he, sub_self, abs_zero]
    norm_num
  · show (prior : ℚ) + (start + t - start) = (prior : ℚ) + t
    ring

theorem signal_reports_cumulative_elapsed_witness :
    (handle_signal 300 0 (0 + 50)).segment_elapsed = 50 ∧
    |(handle_signal 300 0 (0 + 50)).segment_elapsed - 50| ≤ 1 / 2 ∧
    (handle_signal 300 0 (0 + 50)).total_elapsed = ((300 : Int) : ℚ) + 50 ∧
    (handle_signal 300 0 (0 + 50)).exit_code = 1 ∧
    (handle_signal 300 0 (0 + 50)).exit_code ≠ 0 :=
  signal_reports_cumulative_elapsed 300 0 50 (by norm_num)

/-- Outcome of a CPython process: an explicit `sys.exit(code)`, or an uncaught
exception — which the interpreter reports with exit status 1. -/
inductive ProcTermination where
  | exited : Int → ProcTermination
  | uncaught : String → ProcTermination

/-- The exit status the operating system observes for each termination. -/
def os_exit_status : ProcTermination → Int
  | ProcTermination.exited c => c
  | ProcTermination.uncaught _ => 1

/-- Control flow of `handle_signal` (long_train.py lines 7-11) when the
diagnostic `print` calls may themselves raise (e.g. an already-closed stdout):
when emission succeeds the handler reaches `sys.exit(1)`; when a print raises,
the handler has no try/finally, so the exception propagates out of the handler
uncaught and the interpreter terminates with status 1. -/
def handle_signal_termination (emit : Except String Unit) : ProcTermination :=
  match emit with
  | Except.ok _ => ProcTermination.exited 1
  | Except.error e => ProcTermination.uncaught e

/-- C7: whether or not emitting the diagnostic record raises, the process exit
status equals the resume code 1 and is never 0 — the diagnostic is best-effort,
the exit status is guaranteed (on the raising path, because CPython's
uncaught-exception status coincides with the resume code). -/
theorem signal_handler_exit_nonzero (emit : Except String Unit) :
    os_exit_status (handle_signal_termination emit) = 1 ∧
    os_exit_status (handle_signal_termination emit) ≠ 0 := by
  cases emit <;> exact ⟨rfl, one_ne_zero⟩

/-- Position, in rank `k`'s program order, of its self-report print. The ranks
run the loop of tier2-multinode-ddp/train.py lines 42-49:
`for r in range(world_size): if rank == r: print(...); dist.barrier()`.
Rank `k`'s iteration `i` consists of its print (only when `k = i`), then its
arrival at barrier `i`, then its departure from barrier `i`. -/
def pos_print (k : Nat) : Nat := 2 * k

/-- Position, in rank `k`'s program order, of its arrival at barrier `i`. -/
def pos_arrive (k i : Nat) : Nat := if i < k then 2 * i else 2 * i + 1

/-- Position, in rank `k`'s program order, of its departure from barrier `i`. -/
def pos_depart (k i : Nat) : Nat := pos_arrive k i + 1

lemma pos_arrive_le_pos_depart (q p i : Nat) : pos_arrive q i ≤ pos_depart p i := by
  unfold pos_depart pos_arrive
  split <;> split <;> omega

/-- C8: in any execution that respects each rank's program order (`hmono`) and
barrier synchronisation — no rank departs barrier `i` before every rank has
arrived at it (`hbarrier`) — rank `r` prints only after rank `s < r` has
printed and after barrier `s`, a collective synchronisation point, has been
crossed between the two prints. -/
theorem self_report_barrier_ordering (n : Nat) (execTime : Nat → Nat → Nat)
    (hmono : ∀ k, k < n → StrictMono (execTime k))
    (hbarrier : ∀ i p q, i < n → p < n → q < n →
      execTime q (pos_arrive q i) ≤ execTime p (pos_depart p i))
    (r s : Nat) (hsr : s < r) (hrn : r < n) :
    execTime s (pos_print s) < execTime s (pos_arrive s s) ∧
    execTime s (pos_arrive s s) ≤ execTime r (pos_depart r s) ∧
    execTime r (pos_depart r s) < execTime r (pos_print r) ∧
    execTime s (pos_print s) < execTime r (pos_print r) := by
  have hsn : s < n := hsr.trans hrn
  have h1 : execTime s (pos_print s) < execTime s (pos_arrive s s) := by
    apply hmono s hsn
    unfold pos_print pos_arrive
    rw [if_neg (lt_irrefl s)]
    omega
  have h2 : execTime s (pos_arrive s s) ≤ execTime r (pos_depart r s) :=
    hbarrier s r s hsn hrn hsn
  have h3 : execTime r (pos_depart r s) < execTime r (pos_print r) := by
    apply hmono r hrn
    unfold pos_depart pos_arrive pos_print
    rw [if_pos hsr]
    omega
  exact ⟨h1, h2, h3, (h1.trans_le h2).trans h3⟩

theorem self_report_barrier_ordering_witness :
    pos_print 0 < pos_arrive 0 0 ∧ pos_arrive 0 0 ≤ pos_depart 1 0 ∧
    pos_depart 1 0 < pos_print 1 ∧ pos_print 0 < pos_print 1 :=
  self_report_barrier_ordering 2 (fun _ p => p) (fun _ _ => strictMono_id)
    (fun i p q _ _ _ => pos_arrive_le_pos_depart q p i) 1 0 (by decide) (by decide)

/-- Decimal-digit accumulator for `py_int`. -/
def parse_nat_digits : List Char → Nat → Option Nat
  | [], acc => some acc
  | c :: cs, acc =>
    if c.isDigit then parse_nat_digits cs (acc * 10 + (c.toNat - 48)) else none

/-- Python's `int(s)` on a plain decimal literal, optionally negated; `none`
models the ValueError raised on a malformed literal. -/
def py_int (s : String) : Option Int :=
  match s.toList with
  | [] => none
  | '-' :: cs =>
    match cs with
    | [] => none
    | _ => (parse_nat_digits cs 0).map (fun n => -(n : Int))
  | l => (parse_nat_digits l 0).map (fun n => (n : Int))

/-- coordinator.py line 20:
`SLURM_PROCID = int(os.environ.get("SLURM_PROCID", "0"))`. -/
def slurm_procid (env : String → Option String) : Option Int :=
  py_int ((env "SLURM_PROCID").getD "0")

/-- The two roles a coordinator.py process can take. -/
inductive NodeRole where
  | head
  | worker
deriving DecidableEq

/-- coordinator.py lines 334-338: run `run_head()` iff `SLURM_PROCID == 0`,
otherwise `run_worker()`. -/
def main_role (env : String → Option String) : Option NodeRole :=
  match slurm_procid env with
  | none => none
  | some p => some (if p = 0 then NodeRole.head else NodeRole.worker)

/-- C10: when SLURM_PROCID is absent from the environment, the rank defaults to
`int("0") = 0` and the process takes the coordinator (head) path. -/
theorem unset_procid_defaults_to_head (env : String → Option String)
    (h : env "SLURM_PROCID" = none) :
    slurm_procid env = some 0 ∧ main_role env = some NodeRole.head := by
  have hp : slurm_procid env = some 0 := by
    unfold slurm_procid
    rw [h]
    rfl
  refine ⟨hp, ?_⟩
  unfold main_role
  rw [hp]
  rfl

theorem unset_procid_defaults_to_head_witness :
    slurm_procid (fun _ => none) = some 0 ∧
    main_role (fun _ => none) = some NodeRole.head :=
  unset_procid_defaults_to_head (fun _ => none) rfl
